import Mathlib

/-!
Shallow embedding of the cross-service consistency and authorization protocol
of the formo-backend repository (moleculer microservice backend: users,
organisations, projects, tasks, comments).

Conventions of the embedding:
* Entity stores are lists of entity records; the store-assigned `_id` of a
  freshly inserted document is passed to each action as an explicit `newId`
  argument.
* The Entity Store adapter (`mixins/db.mixin`) is repository code that is not
  under `src/`; per the specification (§6) it is modelled as a key-value
  collection: `findOne(filter)` returns the first entity matching the filter,
  `find(filter)` returns all entities matching the filter (field-equality
  semantics), `updateById` replaces the document with the given id and
  `removeById` deletes it.  The moleculer transport wrapper
  `\x7b query: ... \x7d` around a filter is unwrapped: the filter is the
  field-equality map the call site denotes.
* Each action returns `Except BusError (World × List Effect)`: a thrown
  `MoleculerClientError(message, code)` becomes `.error ⟨message, code⟩` and
  aborts before any further effect, exactly as a JS throw does; a successful
  run returns the updated stores together with the ordered trace of store
  writes and event emissions it performed.  Read-only response shaping after
  the last write/emit (`getTaskData`, `transformDocuments`, `getProjectData`,
  cache invalidation hooks) performs no store mutation and no domain-event
  emission and is omitted.
* Event handlers are total functions `store → payload → store × List Effect`
  (the source handlers contain no throw; an absent payload or target document
  makes them return without touching the store).
-/

/-- Opaque store identifier (the `_id` strings assigned by the DB). -/
abbrev EntityId := String

/-- User entity (src/services/user.service.js, third schema in the file):
fields of the embedding are the ones the protocol reads.  The password hash is
kept as an opaque string (hashing is an external primitive per spec §1). -/
structure User where
  uid : EntityId
  firstName : String
  lastName : String
  email : String
  password : String
  role : String
  organisation : Option EntityId
  projects : List EntityId
  deriving Repr, DecidableEq

/-- Organisation entity (src/unnamed/part_002 settings.fields). -/
structure Organisation where
  oid : EntityId
  name : String
  members : List EntityId
  projects : List EntityId
  deriving Repr, DecidableEq

/-- Project entity (src/unnamed/part_004, second schema, settings.fields). -/
structure Project where
  pid : EntityId
  name : String
  color : String
  organisation : EntityId
  budget : Int
  members : List EntityId
  tasks : List EntityId
  deriving Repr, DecidableEq

/-- Modelled from the spec: the task status enum constants
(`C.TASK_STATUSES`, `C.TASK_STATUS_BACKLOG` of the missing `constants` module);
spec §3 names the statuses backlog / in-progress / done. -/
inductive TaskStatus where
  | backlog
  | inProgress
  | doneStatus
  deriving Repr, DecidableEq

/-- TaskEnt entity (src/unnamed/part_003 settings.fields).  The source uses the
empty string as the "no assignee" sentinel (`entity.assignee || ""`). -/
structure TaskEnt where
  tid : EntityId
  name : String
  description : String
  status : TaskStatus
  assignee : EntityId
  project : EntityId
  comments : List EntityId
  attachments : List EntityId
  deriving Repr, DecidableEq

/-- TaskEnt comment entity (src/services/task.comments.service.js settings.fields). -/
structure TaskComment where
  cid : EntityId
  author : EntityId
  text : String
  task : EntityId
  deriving Repr, DecidableEq

/-- The five entity stores of the four services (comments live in their own
store owned by the task.comments service). -/
structure World where
  users : List User
  orgs : List Organisation
  projects : List Project
  tasks : List TaskEnt
  comments : List TaskComment
  deriving Repr, DecidableEq

/-- Structured synchronous failure: mirrors `MoleculerClientError(message, code)`. -/
structure BusError where
  msg : String
  code : Nat
  deriving Repr, DecidableEq

/-- Domain events of the protocol with their payload fields (spec §6 canonical
event names; constructors mirror the emit sites in the source). -/
inductive Event where
  | taskCreated (project : EntityId) (task : EntityId) (user : EntityId)
  | taskRemoved (task : EntityId) (project : EntityId)
  | projectCreated (org : EntityId) (project : EntityId)
  | projectRemoved (project : EntityId) (org : Option EntityId)
  | organisationRemoved (org : EntityId)
  | userOrgAdded (orgId : EntityId) (user : EntityId)
  | taskCommentCreated (comment : EntityId) (task : EntityId)
  | taskCommentRemoved (comment : EntityId) (task : EntityId)
  | taskAttachmentUploaded (task : EntityId) (file : String)
  deriving Repr, DecidableEq

/-- A single store mutation performed through the adapter. -/
inductive StoreOp where
  | insertUser (u : User)
  | insertOrg (o : Organisation)
  | insertProject (p : Project)
  | insertTask (t : TaskEnt)
  | insertComment (c : TaskComment)
  | updateOrg (oid : EntityId) (o : Organisation)
  | updateTask (tid : EntityId) (t : TaskEnt)
  | updateProject (pid : EntityId) (p : Project)
  | removeOrg (oid : EntityId)
  | removeProject (pid : EntityId)
  | removeTask (tid : EntityId)
  | removeComment (cid : EntityId)
  deriving Repr, DecidableEq

/-- One observable side effect of an action or handler, in execution order. -/
inductive Effect where
  | emit (e : Event)
  | write (op : StoreOp)
  deriving Repr, DecidableEq

/-- `adapter.findOne(\x7b _id: id \x7d)` on the users store. -/
def findUser (users : List User) (i : EntityId) : Option User :=
  users.find? (fun u => u.uid == i)

/-- `adapter.findOne(\x7b _id: id \x7d)` on the organisations store. -/
def findOrg (orgs : List Organisation) (i : EntityId) : Option Organisation :=
  orgs.find? (fun o => o.oid == i)

/-- `adapter.findOne(\x7b _id: id \x7d)` on the projects store. -/
def findProject (projects : List Project) (i : EntityId) : Option Project :=
  projects.find? (fun p => p.pid == i)

/-- `adapter.findOne(\x7b _id: id \x7d)` on the tasks store. -/
def findTask (tasks : List TaskEnt) (i : EntityId) : Option TaskEnt :=
  tasks.find? (fun t => t.tid == i)

/-- `adapter.findOne(\x7b _id: id \x7d)` on the comments store. -/
def findComment (comments : List TaskComment) (i : EntityId) : Option TaskComment :=
  comments.find? (fun c => c.cid == i)

/-- `adapter.removeById` on the tasks store. -/
def removeTaskById (tasks : List TaskEnt) (i : EntityId) : List TaskEnt :=
  tasks.filter (fun t => t.tid != i)

/-- `adapter.removeById` on the projects store. -/
def removeProjectById (projects : List Project) (i : EntityId) : List Project :=
  projects.filter (fun p => p.pid != i)

/-- `adapter.removeById` on the organisations store. -/
def removeOrgById (orgs : List Organisation) (i : EntityId) : List Organisation :=
  orgs.filter (fun o => o.oid != i)

/-- `adapter.removeById` on the comments store. -/
def removeCommentById (comments : List TaskComment) (i : EntityId) : List TaskComment :=
  comments.filter (fun c => c.cid != i)

/-- `adapter.updateById(id, \x7b $set: o \x7d)` on the organisations store:
replaces the document carrying the given id. -/
def updateOrgById (orgs : List Organisation) (i : EntityId) (o : Organisation) :
    List Organisation :=
  orgs.map (fun x => if x.oid == i then o else x)

/-- `adapter.updateById(id, \x7b $set: t \x7d)` on the tasks store. -/
def updateTaskById (tasks : List TaskEnt) (i : EntityId) (t : TaskEnt) : List TaskEnt :=
  tasks.map (fun x => if x.tid == i then t else x)

/-- `adapter.updateById(id, \x7b $set: p \x7d)` on the projects store. -/
def updateProjectById (projects : List Project) (i : EntityId) (p : Project) :
    List Project :=
  projects.map (fun x => if x.pid == i then p else x)

/-- Return value of the `isCreated` actions.  The source actions return the
raw `findOne` result (the entity document, or null); the `boolV` constructor
exists so the boolean return value the specification promises can be stated
and compared against what the code returns. -/
inductive IsCreatedResult where
  | nullV
  | boolV (b : Bool)
  | orgV (o : Organisation)
  | projV (p : Project)
  | taskV (t : TaskEnt)
  deriving Repr, DecidableEq

/-- JavaScript truthiness of an `isCreated` return value as used by callers
(`if(!isProjectExisting) ...`): null and false are falsy, an entity document
and true are truthy. -/
def truthy : IsCreatedResult → Bool
  | .nullV => false
  | .boolV b => b
  | .orgV _ => true
  | .projV _ => true
  | .taskV _ => true

/-- `organisations.isCreated` (src/unnamed/part_002 lines 141-146): returns
the raw `findOne` result. -/
def organisationsIsCreated (orgs : List Organisation) (i : EntityId) : IsCreatedResult :=
  match findOrg orgs i with
  | some o => .orgV o
  | none => .nullV

/-- `projects.isCreated` (src/unnamed/part_004 lines 459-464): returns the raw
`findOne` result. -/
def projectsIsCreated (projects : List Project) (i : EntityId) : IsCreatedResult :=
  match findProject projects i with
  | some p => .projV p
  | none => .nullV

/-- `tasks.isCreated` (src/unnamed/part_003 lines 272-277): returns the raw
`findOne` result. -/
def tasksIsCreated (tasks : List TaskEnt) (i : EntityId) : IsCreatedResult :=
  match findTask tasks i with
  | some t => .taskV t
  | none => .nullV

/-- Modelled from the spec: `user.isAuthorized` of the User Service is not
under `src/` (only its callers and tests are).  Spec §4.3/§6: fetch the user
record by ID; if absent the check fails closed; otherwise succeed iff the
current role of the user is a member of the acceptable-role set (the source
callers pass the set as a pipe-delimited string such as
"admin|project_manager"; it is passed here as the list of role names). -/
def userIsAuthorized (users : List User) (i : EntityId) (actionRank : List String) : Bool :=
  match findUser users i with
  | none => false
  | some u => actionRank.contains u.role

/-- Modelled from the spec: `user.isCreated` of the User Service is not under
`src/`; spec §6: `user.isCreated -> boolean`, true iff a user with the given
ID exists. -/
def userIsCreated (users : List User) (i : EntityId) : Bool :=
  (findUser users i).isSome

/-- The role-check rejection every protected action throws
(`MoleculerClientError` with code 405); this is the Forbidden-class error of
the codebase (spec §7: role check failed).  The message is the source text
with its contraction spelled out. -/
def roleError : BusError :=
  ⟨"User with that role cannot use this action.", 405⟩

/-- Validation failure raised by `validateEntity` / the action params
validator (moleculer ValidationError, 422-class). -/
def validationError : BusError :=
  ⟨"ValidationError", 422⟩

/-- Request payload of `tasks.create` (src/unnamed/part_003 action params).
`assignee` uses the source sentinel: the empty string stands for an absent or
empty assignee (the handler tests it with JS truthiness).  `dueDate` and
`priority` are never read by the protocol and are omitted. -/
structure TaskPayload where
  status : Option TaskStatus
  name : String
  description : String
  assignee : EntityId
  project : EntityId
  comments : Option (List EntityId)
  deriving Repr, DecidableEq

/-- `validateEntity` for tasks (entityValidator of src/unnamed/part_003):
name is a string of length at least 2; the remaining constraints are typing
constraints already enforced by the payload type. -/
def validTaskPayload (t : TaskPayload) : Bool :=
  t.name.length >= 2

/-- Request payload of `projects.create` (src/unnamed/part_004, second schema,
action params). -/
structure ProjectPayload where
  name : String
  color : String
  organisation : EntityId
  budget : Int
  members : Option (List EntityId)
  tasks : Option (List EntityId)
  deriving Repr, DecidableEq

/-- Action-params validation for `projects.create` (runs before the handler
body): name min 1, color min 2. -/
def validProjectParams (p : ProjectPayload) : Bool :=
  p.name.length >= 1 && p.color.length >= 2

/-- `validateEntity` for projects (entityValidator of src/unnamed/part_004,
second schema): name min 2, color min 2, organisation min 2. -/
def validProjectEntity (p : ProjectPayload) : Bool :=
  p.name.length >= 2 && p.color.length >= 2 && p.organisation.length >= 2

/-- Request payload of `task.comments.create`
(src/services/task.comments.service.js action params). -/
structure CommentPayload where
  author : EntityId
  text : String
  task : EntityId
  deriving Repr, DecidableEq

/-- `validateEntity` for task comments: author min 2, text between 1 and 255. -/
def validCommentPayload (c : CommentPayload) : Bool :=
  c.author.length >= 2 && c.text.length >= 1 && c.text.length <= 255

/-- Request payload of `user.create` (src/services/user.service.js, third
schema).  `sex`, `settings` and `tasks` are never read by the protocol and are
omitted. -/
structure UserPayload where
  firstName : String
  lastName : String
  email : String
  password : String
  role : String
  organisation : Option EntityId
  projects : Option (List EntityId)
  deriving Repr, DecidableEq

/-- `validateEntity` for users (entityValidator of the third user schema):
firstName min 2, lastName min 2, password min 6, role min 2, email of email
type (the format check of the external validator is abstracted to the email
being nonempty). -/
def validUserPayload (p : UserPayload) : Bool :=
  p.firstName.length >= 2 && p.lastName.length >= 2 && p.password.length >= 6
    && p.role.length >= 2 && p.email != ""

/-- `tasks.create` (src/unnamed/part_003 lines 88-122): validate, role check
(admin|project_manager, 405), assignee existence (404), project existence
(404), then one insert with status forced to the backlog constant followed by
one `task.created` emit carrying the project id, the new task id and the
assignee. -/
def tasksCreate (w : World) (me : EntityId) (t : TaskPayload) (newId : EntityId) :
    Except BusError (World × List Effect) :=
  if !(validTaskPayload t) then .error validationError
  else if !(userIsAuthorized w.users me ["admin", "project_manager"]) then .error roleError
  else if t.assignee != "" && !(userIsCreated w.users t.assignee) then
    .error ⟨"Provided user not found!", 404⟩
  else if !(truthy (projectsIsCreated w.projects t.project)) then
    .error ⟨"Provided project not found!", 404⟩
  else
    let doc : TaskEnt :=
      { tid := newId, name := t.name, description := t.description,
        status := .backlog, assignee := t.assignee, project := t.project,
        comments := t.comments.getD [], attachments := [] }
    .ok ({ w with tasks := w.tasks ++ [doc] },
         [.write (.insertTask doc), .emit (.taskCreated t.project newId t.assignee)])

/-- `projects.create` (src/unnamed/part_004 lines 301-354, the schema the
repository currently wires): params check, missing-organisation guard (400),
role check (405), entity validation, name-uniqueness check (422), organisation
existence via `organisations.isCreated` (404), then a single insert.  The
handler performs NO event emission: unlike the superseded first schema in the
same file (line 108), no `project.created` event is published. -/
def projectsCreate (w : World) (me : EntityId) (p : ProjectPayload) (newId : EntityId) :
    Except BusError (World × List Effect) :=
  if !(validProjectParams p) then .error validationError
  else if p.organisation == "" then .error ⟨"Organisation ID is not provided!", 400⟩
  else if !(userIsAuthorized w.users me ["admin", "project_manager"]) then .error roleError
  else if !(validProjectEntity p) then .error validationError
  else if (w.projects.find? (fun q => q.name == p.name)).isSome then
    .error ⟨"Project with that name already exists!", 422⟩
  else if !(truthy (organisationsIsCreated w.orgs p.organisation)) then
    .error ⟨"Provided organisation not found!", 404⟩
  else
    let doc : Project :=
      { pid := newId, name := p.name, color := p.color,
        organisation := p.organisation, budget := p.budget,
        members := p.members.getD [me], tasks := p.tasks.getD [] }
    .ok ({ w with projects := w.projects ++ [doc] },
         [.write (.insertProject doc)])

/-- `task.comments.create` (src/services/task.comments.service.js lines
70-98): validate, role check (any of the three roles, 405), author existence
(404), task existence (404), then one insert followed by one
`task.comment.created` emit. -/
def commentsCreate (w : World) (me : EntityId) (c : CommentPayload) (newId : EntityId) :
    Except BusError (World × List Effect) :=
  if !(validCommentPayload c) then .error validationError
  else if !(userIsAuthorized w.users me ["admin", "project_manager", "employee"]) then
    .error roleError
  else if c.author != "" && !(userIsCreated w.users c.author) then
    .error ⟨"Provided user not found!", 404⟩
  else if !(truthy (tasksIsCreated w.tasks c.task)) then
    .error ⟨"Provided task not found!", 404⟩
  else
    let doc : TaskComment :=
      { cid := newId, author := c.author, text := c.text, task := c.task }
    .ok ({ w with comments := w.comments ++ [doc] },
         [.write (.insertComment doc), .emit (.taskCommentCreated newId c.task)])

/-- `user.create` (src/services/user.service.js lines 536-565, third schema):
validate, then reject with 422 when a stored user already carries the e-mail,
else insert the new user (password hashing is an opaque external primitive;
the stored credential is kept as given). -/
def userCreate (w : World) (p : UserPayload) (newId : EntityId) :
    Except BusError (World × List Effect) :=
  if !(validUserPayload p) then .error validationError
  else if p.email != "" && (w.users.find? (fun u => u.email == p.email)).isSome then
    .error ⟨"User with that e-mail already exists!", 422⟩
  else
    let doc : User :=
      { uid := newId, firstName := p.firstName, lastName := p.lastName,
        email := p.email, password := p.password,
        role := if p.role == "" then "admin" else p.role,
        organisation := p.organisation, projects := p.projects.getD [] }
    .ok ({ w with users := w.users ++ [doc] },
         [.write (.insertUser doc)])

/-- `organisations.remove` (src/unnamed/part_002 lines 158-171): lookup (404),
role check (admin only, 405), then `organisation.removed` emit followed by the
delete. -/
def organisationsRemove (w : World) (me : EntityId) (i : EntityId) :
    Except BusError (World × List Effect) :=
  match findOrg w.orgs i with
  | none => .error ⟨"Organisation not found!", 404⟩
  | some org =>
    if !(userIsAuthorized w.users me ["admin"]) then .error roleError
    else
      .ok ({ w with orgs := removeOrgById w.orgs i },
           [.emit (.organisationRemoved org.oid), .write (.removeOrg i)])

/-- `organisations.addMember` (src/unnamed/part_002 lines 177-199): params
check, lookup (404), duplicate-membership guard (409), then the handler
EMITS `user.orgAdded` first and only afterwards commits the updated member
list with `updateById`. -/
def organisationsAddMember (w : World) (i : EntityId) (user : EntityId) :
    Except BusError (World × List Effect) :=
  if !(i.length >= 2 && user.length >= 2) then .error validationError
  else
    match findOrg w.orgs i with
    | none => .error ⟨"Organisation not found!", 404⟩
    | some org =>
      if org.members.contains user then
        .error ⟨"User is already member of this organisation!", 409⟩
      else
        let org2 : Organisation := { org with members := org.members ++ [user] }
        .ok ({ w with orgs := updateOrgById w.orgs i org2 },
             [.emit (.userOrgAdded i user), .write (.updateOrg i org2)])

/-- `tasks.remove` (src/unnamed/part_003 lines 198-211): lookup (404), role
check (admin|project_manager, 405), then the `task.removed` emit followed by
the delete. -/
def tasksRemove (w : World) (me : EntityId) (i : EntityId) :
    Except BusError (World × List Effect) :=
  match findTask w.tasks i with
  | none => .error ⟨"Task not found!", 404⟩
  | some task =>
    if !(userIsAuthorized w.users me ["admin", "project_manager"]) then .error roleError
    else
      .ok ({ w with tasks := removeTaskById w.tasks i },
           [.emit (.taskRemoved task.tid task.project), .write (.removeTask i)])

/-- `task.comments.remove` (src/services/task.comments.service.js lines
162-175): role check (any of the three roles, 405), lookup (404), then the
`task.comment.removed` emit followed by the delete. -/
def commentsRemove (w : World) (me : EntityId) (i : EntityId) :
    Except BusError (World × List Effect) :=
  if !(userIsAuthorized w.users me ["admin", "project_manager", "employee"]) then
    .error roleError
  else
    match findComment w.comments i with
    | none => .error ⟨"Task comment not found!", 404⟩
    | some comment =>
      .ok ({ w with comments := removeCommentById w.comments i },
           [.emit (.taskCommentRemoved comment.cid comment.task), .write (.removeComment i)])

/-- `projects.remove` (src/unnamed/part_004 lines 440-453): role check
(admin|project_manager, 405), lookup (404), then the `project.removed` emit
(payload: the project id and its owning organisation id) followed by the
delete. -/
def projectsRemove (w : World) (me : EntityId) (i : EntityId) :
    Except BusError (World × List Effect) :=
  if !(userIsAuthorized w.users me ["admin", "project_manager"]) then .error roleError
  else
    match findProject w.projects i with
    | none => .error ⟨"Project not found!", 404⟩
    | some project =>
      .ok ({ w with projects := removeProjectById w.projects i },
           [.emit (.projectRemoved project.pid (some project.organisation)),
            .write (.removeProject i)])

/-- Payload of the `user.removed` event (spec §6: user.removed carries user,
org, oldNick). -/
structure UserRemovedPayload where
  user : EntityId
  org : EntityId
  oldNick : String
  deriving Repr, DecidableEq

/-- Payload of the `project.created` event. -/
structure ProjectCreatedPayload where
  org : EntityId
  project : EntityId
  deriving Repr, DecidableEq

/-- Payload of the `project.removed` event; `org` is null in the emission from
the organisation-removal cascade, hence optional. -/
structure ProjectRemovedPayload where
  project : EntityId
  org : Option EntityId
  deriving Repr, DecidableEq

/-- Payload of the `task.created` event. -/
structure TaskCreatedPayload where
  project : EntityId
  task : EntityId
  user : EntityId
  deriving Repr, DecidableEq

/-- Payload of the `task.comment.created` event. -/
structure TaskCommentCreatedPayload where
  comment : EntityId
  task : EntityId
  deriving Repr, DecidableEq

/-- Payload of the `task.attachment.uploaded` event. -/
structure TaskAttachmentUploadedPayload where
  task : EntityId
  file : String
  deriving Repr, DecidableEq

/-- Organisation Service handler for `user.removed` (src/unnamed/part_002
lines 256-265): absent payload or absent target organisation is a silent
no-op; otherwise the member id is filtered out and the document committed. -/
def orgsOnUserRemoved (orgs : List Organisation) (pl : Option UserRemovedPayload) :
    List Organisation × List Effect :=
  match pl with
  | none => (orgs, [])
  | some pl =>
    match findOrg orgs pl.org with
    | none => (orgs, [])
    | some org =>
      let org2 : Organisation := { org with members := org.members.filter (fun m => m != pl.user) }
      (updateOrgById orgs pl.org org2, [.write (.updateOrg pl.org org2)])

/-- Organisation Service handler for `project.created` (src/unnamed/part_002
lines 268-277): absent payload or target is a silent no-op; otherwise the
project id is PUSHED onto the projects list (no prior-presence check) and the
document committed. -/
def orgsOnProjectCreated (orgs : List Organisation) (pl : Option ProjectCreatedPayload) :
    List Organisation × List Effect :=
  match pl with
  | none => (orgs, [])
  | some pl =>
    match findOrg orgs pl.org with
    | none => (orgs, [])
    | some org =>
      let org2 : Organisation := { org with projects := org.projects ++ [pl.project] }
      (updateOrgById orgs pl.org org2, [.write (.updateOrg pl.org org2)])

/-- Organisation Service handler for `project.removed` (src/unnamed/part_002
lines 280-289): absent payload, falsy payload.org, or absent target is a
silent no-op; otherwise the project id is filtered out. -/
def orgsOnProjectRemoved (orgs : List Organisation) (pl : Option ProjectRemovedPayload) :
    List Organisation × List Effect :=
  match pl with
  | none => (orgs, [])
  | some pl =>
    match pl.org with
    | none => (orgs, [])
    | some og =>
      if og == "" then (orgs, [])
      else
        match findOrg orgs og with
        | none => (orgs, [])
        | some org =>
          let org2 : Organisation := { org with projects := org.projects.filter (fun q => q != pl.project) }
          (updateOrgById orgs og org2, [.write (.updateOrg og org2)])

/-- Task Service handler for `project.removed` (src/unnamed/part_003 lines
284-295): finds the tasks of the removed project (`adapter.find` with the
project filter, modelled per the spec store interface as a filtered find) and,
iterating from the last found task to the first, emits `task.removed` for it
and deletes it. -/
def tasksOnProjectRemoved (tasks : List TaskEnt) (pl : Option ProjectRemovedPayload) :
    List TaskEnt × List Effect :=
  match pl with
  | none => (tasks, [])
  | some pl =>
    let matched := tasks.filter (fun t => t.project == pl.project)
    matched.reverse.foldl
      (fun acc t =>
        (removeTaskById acc.1 t.tid,
         acc.2 ++ [.emit (.taskRemoved t.tid pl.project), .write (.removeTask t.tid)]))
      (tasks, [])

/-- Task Service handler for `task.comment.created` (src/unnamed/part_003
lines 312-321): absent payload or target task is a silent no-op; otherwise the
comment id is PUSHED onto the comments list (no prior-presence check). -/
def tasksOnTaskCommentCreated (tasks : List TaskEnt) (pl : Option TaskCommentCreatedPayload) :
    List TaskEnt × List Effect :=
  match pl with
  | none => (tasks, [])
  | some pl =>
    match findTask tasks pl.task with
    | none => (tasks, [])
    | some task =>
      let task2 : TaskEnt := { task with comments := task.comments ++ [pl.comment] }
      (updateTaskById tasks pl.task task2, [.write (.updateTask pl.task task2)])

/-- Task Service handler for `task.attachment.uploaded` (src/unnamed/part_003
lines 336-345): absent payload or target task is a silent no-op; otherwise the
file name is PUSHED onto the attachments list (no prior-presence check). -/
def tasksOnTaskAttachmentUploaded (tasks : List TaskEnt) (pl : Option TaskAttachmentUploadedPayload) :
    List TaskEnt × List Effect :=
  match pl with
  | none => (tasks, [])
  | some pl =>
    match findTask tasks pl.task with
    | none => (tasks, [])
    | some task =>
      let task2 : TaskEnt := { task with attachments := task.attachments ++ [pl.file] }
      (updateTaskById tasks pl.task task2, [.write (.updateTask pl.task task2)])

/-- Project Service handler for `task.created` (src/unnamed/part_004 lines
483-492): absent payload or target project is a silent no-op; otherwise the
task id is pushed onto the tasks roster. -/
def projectsOnTaskCreated (projects : List Project) (pl : Option TaskCreatedPayload) :
    List Project × List Effect :=
  match pl with
  | none => (projects, [])
  | some pl =>
    match findProject projects pl.project with
    | none => (projects, [])
    | some project =>
      let project2 : Project := { project with tasks := project.tasks ++ [pl.task] }
      (updateProjectById projects pl.project project2, [.write (.updateProject pl.project project2)])

/-- The domain events contained in an effect trace, in emission order. -/
def emits (tr : List Effect) : List Event :=
  tr.filterMap (fun e => match e with | .emit ev => some ev | .write _ => none)

/-- The store writes contained in an effect trace, in execution order. -/
def writes (tr : List Effect) : List StoreOp :=
  tr.filterMap (fun e => match e with | .emit _ => none | .write op => some op)

/-- Decides whether every event emission in a trace happens strictly after at
least one store write: the publish-after-commit discipline of spec §2. -/
def emitsAfterCommitAux : List Effect → Bool → Bool
  | [], _ => true
  | .write _ :: rest, _ => emitsAfterCommitAux rest true
  | .emit _ :: rest, seenWrite => seenWrite && emitsAfterCommitAux rest seenWrite

/-- True iff each emitted event is preceded (somewhere earlier in the trace)
by a store write. -/
def emitsAfterCommit (tr : List Effect) : Bool :=
  emitsAfterCommitAux tr false

/-- Generic store lemma: after an `updateById`-style map replacing the
documents whose key is `i` by `v` (whose key is `i`), a `findOne` by key `i`
returns `v` whenever it previously found anything. -/
theorem findBy_update_of_found {α : Type} (key : α → EntityId) (l : List α)
    (i : EntityId) (v a : α) (hk : key v = i)
    (h : l.find? (fun x => key x == i) = some a) :
    (l.map (fun x => if key x == i then v else x)).find? (fun x => key x == i) = some v := by
  have hv : (key v == i) = true := by simp [hk]
  induction l with
  | nil => simp at h
  | cons b t ih =>
    by_cases hb : (key b == i) = true
    · rw [List.map_cons, if_pos hb,
        @List.find?_cons_of_pos _ (fun x => key x == i) v _ hv]
    · rw [@List.find?_cons_of_neg _ (fun x => key x == i) b _ hb] at h
      rw [List.map_cons, if_neg hb,
        @List.find?_cons_of_neg _ (fun x => key x == i) _ _ hb]
      exact ih h

/-- Generic store lemma: after an `updateById`-style map, every stored
document still carrying key `i` is the replacement `v`. -/
theorem mem_update_eq {α : Type} (key : α → EntityId) (l : List α)
    (i : EntityId) (v : α)
    (x : α) (hx : x ∈ l.map (fun y => if key y == i then v else y))
    (hkey : key x = i) : x = v := by
  rcases List.mem_map.mp hx with ⟨y, _, hy⟩
  by_cases h : key y == i
  · rw [if_pos h] at hy; exact hy.symm
  · rw [if_neg h] at hy
    subst hy
    exact absurd (by simp [hkey]) h

/-- Generic store lemma: folding `removeById` over a list of documents `m`
removes exactly the documents whose key equals the key of some member of `m`. -/
theorem foldl_remove_eq_filter {α : Type} (key : α → EntityId) (m l : List α) :
    m.foldl (fun acc t => acc.filter (fun x => key x != key t)) l
      = l.filter (fun x => m.all (fun t => key x != key t)) := by
  induction m generalizing l with
  | nil => simp
  | cons b t ih =>
    simp only [List.foldl, ih, List.filter_filter]
    apply List.filter_congr
    intro x _
    simp [Bool.and_comm]

/-- Splitting a store-and-trace fold into its components. -/
theorem foldl_pair_fst {α β γ : Type} (f : β → α → β) (g : γ → α → γ)
    (m : List α) (b : β) (c : γ) :
    (m.foldl (fun acc t => (f acc.1 t, g acc.2 t)) (b, c)).1 = m.foldl f b := by
  induction m generalizing b c with
  | nil => rfl
  | cons x t ih => simp only [List.foldl]; exact ih (f b x) (g c x)

/-- Per-store corollary of `findBy_update_of_found` for organisations. -/
theorem findOrg_updateOrgById (orgs : List Organisation) (i : EntityId)
    (v a : Organisation) (hk : v.oid = i) (h : findOrg orgs i = some a) :
    findOrg (updateOrgById orgs i v) i = some v := by
  unfold findOrg at h
  unfold findOrg updateOrgById
  exact findBy_update_of_found (fun x => x.oid) orgs i v a hk h

/-- Per-store corollary of `findBy_update_of_found` for tasks. -/
theorem findTask_updateTaskById (tasks : List TaskEnt) (i : EntityId)
    (v a : TaskEnt) (hk : v.tid = i) (h : findTask tasks i = some a) :
    findTask (updateTaskById tasks i v) i = some v := by
  unfold findTask at h
  unfold findTask updateTaskById
  exact findBy_update_of_found (fun x => x.tid) tasks i v a hk h

/-- Per-store corollary of `mem_update_eq` for organisations. -/
theorem mem_updateOrgById_eq (orgs : List Organisation) (i : EntityId)
    (v x : Organisation) (hx : x ∈ updateOrgById orgs i v) (hkey : x.oid = i) :
    x = v := by
  unfold updateOrgById at hx
  exact mem_update_eq (fun y => y.oid) orgs i v x hx hkey

/-- Per-store corollary of `mem_update_eq` for tasks. -/
theorem mem_updateTaskById_eq (tasks : List TaskEnt) (i : EntityId)
    (v x : TaskEnt) (hx : x ∈ updateTaskById tasks i v) (hkey : x.tid = i) :
    x = v := by
  unfold updateTaskById at hx
  exact mem_update_eq (fun y => y.tid) tasks i v x hx hkey

/-- Generic existence lemma for keyed `findOne`. -/
theorem findBy_isSome_iff {α : Type} (key : α → EntityId) (l : List α) (i : EntityId) :
    (l.find? (fun x => key x == i)).isSome = true ↔ ∃ x ∈ l, key x = i := by
  induction l with
  | nil => simp
  | cons b t ih =>
    by_cases hb : (key b == i) = true
    · rw [@List.find?_cons_of_pos _ (fun x => key x == i) b _ hb]
      simp only [Option.isSome_some, true_iff]
      exact ⟨b, List.mem_cons_self b t, by simpa using hb⟩
    · rw [@List.find?_cons_of_neg _ (fun x => key x == i) b _ hb]
      rw [ih]
      constructor
      · rintro ⟨x, hx, hxi⟩
        exact ⟨x, List.mem_cons_of_mem _ hx, hxi⟩
      · rintro ⟨x, hx, hxi⟩
        rcases List.mem_cons.mp hx with rfl | hx2
        · exact absurd (by simp [hxi]) hb
        · exact ⟨x, hx2, hxi⟩

/-- Test fixture: a stored admin user. -/
def uAdmin : User :=
  { uid := "u1", firstName := "Ada", lastName := "Admin", email := "ada@x.com",
    password := "secret1", role := "admin", organisation := none, projects := [] }

/-- Test fixture: a stored employee user. -/
def uEmp : User :=
  { uid := "u2", firstName := "Eve", lastName := "Ember", email := "eve@x.com",
    password := "secret1", role := "employee", organisation := none, projects := [] }

/-- Test fixture: a stored organisation. -/
def oAcme : Organisation :=
  { oid := "o1", name := "Acme", members := [], projects := [] }

/-- Test fixture: a stored project owned by `oAcme`. -/
def pOne : Project :=
  { pid := "p1", name := "P1", color := "#fff", organisation := "o1",
    budget := 100, members := ["u1"], tasks := [] }

/-- Test fixture: a stored task of project `pOne`. -/
def tOne : TaskEnt :=
  { tid := "t1", name := "Fix login", description := "d", status := .backlog,
    assignee := "", project := "p1", comments := [], attachments := [] }

/-- Test fixture: a stored comment on task `tOne`. -/
def cOne : TaskComment :=
  { cid := "c1", author := "u1", text := "hello", task := "t1" }

/-- C9 counterexample: `organisations.isCreated` (and likewise the projects
and tasks variants) does not return the boolean `true` when the entity
exists — it returns the raw entity document found by `findOne` (and null when
absent), so the claimed boolean return value is wrong as stated. -/
theorem c9_isCreated_not_boolean_cex :
    organisationsIsCreated [oAcme] "o1" = IsCreatedResult.orgV oAcme
      ∧ IsCreatedResult.orgV oAcme ≠ IsCreatedResult.boolV true
      ∧ IsCreatedResult.orgV oAcme ≠ IsCreatedResult.boolV false
      ∧ projectsIsCreated [pOne] "p1" = IsCreatedResult.projV pOne
      ∧ tasksIsCreated [tOne] "t1" = IsCreatedResult.taskV tOne
      ∧ organisationsIsCreated [oAcme] "o9" = IsCreatedResult.nullV := by
  decide

/-- C9 (amended): each isCreated query returns the stored entity document
when an entity with the given ID exists in that store and null when it does
not; the JS truthiness of the returned value therefore coincides exactly with
existence (which is how every caller consumes it). -/
theorem c9_isCreated_truthy_iff_exists (orgs : List Organisation)
    (projects : List Project) (tasks : List TaskEnt) (i : EntityId) :
    (truthy (organisationsIsCreated orgs i) = true ↔ ∃ o ∈ orgs, o.oid = i)
      ∧ (truthy (projectsIsCreated projects i) = true ↔ ∃ p ∈ projects, p.pid = i)
      ∧ (truthy (tasksIsCreated tasks i) = true ↔ ∃ t ∈ tasks, t.tid = i) := by
  refine ⟨?_, ?_, ?_⟩
  · rw [← findBy_isSome_iff (fun x => x.oid) orgs i]
    unfold organisationsIsCreated findOrg
    cases orgs.find? (fun o => o.oid == i) <;> simp [truthy]
  · rw [← findBy_isSome_iff (fun x => x.pid) projects i]
    unfold projectsIsCreated findProject
    cases projects.find? (fun p => p.pid == i) <;> simp [truthy]
  · rw [← findBy_isSome_iff (fun x => x.tid) tasks i]
    unfold tasksIsCreated findTask
    cases tasks.find? (fun t => t.tid == i) <;> simp [truthy]

/-- C2 counterexample: delivering the same `project.created` event twice to
the Organisation Service (and the same `task.comment.created` event twice to
the Task Service) appends the ID a second time: the back-reference list ends
up with a duplicate, so the handlers are not idempotent as claimed. -/
theorem c2_duplicate_delivery_duplicates_cex :
    ((orgsOnProjectCreated (orgsOnProjectCreated [oAcme] (some ⟨"o1", "p1"⟩)).1
        (some ⟨"o1", "p1"⟩)).1 = [{ oAcme with projects := ["p1", "p1"] }])
      ∧ ((tasksOnTaskCommentCreated (tasksOnTaskCommentCreated [tOne] (some ⟨"c9", "t1"⟩)).1
          (some ⟨"c9", "t1"⟩)).1 = [{ tOne with comments := ["c9", "c9"] }])
      ∧ ¬ (["p1", "p1"] : List EntityId).Nodup := by
  decide

/-- C2 (corrected): the membership-add propagation handlers
(`project.created` on organisations, `task.comment.created` and
`task.attachment.uploaded` on tasks) do NOT deduplicate: they push the ID
without a prior-presence check, so a second delivery of the same add event
appends the already-present ID again and the target list gains a duplicate. -/
theorem c2_add_handlers_append_again
    (orgs : List Organisation) (tasks1 tasks2 : List TaskEnt)
    (plP : ProjectCreatedPayload) (plC : TaskCommentCreatedPayload)
    (plA : TaskAttachmentUploadedPayload)
    (org : Organisation) (ta tb : TaskEnt)
    (hO : findOrg orgs plP.org = some org)
    (hC : findTask tasks1 plC.task = some ta)
    (hA : findTask tasks2 plA.task = some tb) :
    (∀ o ∈ (orgsOnProjectCreated (orgsOnProjectCreated orgs (some plP)).1 (some plP)).1,
        o.oid = plP.org → o.projects = org.projects ++ [plP.project, plP.project])
      ∧ (∀ x ∈ (tasksOnTaskCommentCreated (tasksOnTaskCommentCreated tasks1 (some plC)).1 (some plC)).1,
          x.tid = plC.task → x.comments = ta.comments ++ [plC.comment, plC.comment])
      ∧ (∀ x ∈ (tasksOnTaskAttachmentUploaded (tasksOnTaskAttachmentUploaded tasks2 (some plA)).1 (some plA)).1,
          x.tid = plA.task → x.attachments = tb.attachments ++ [plA.file, plA.file]) := by
  refine ⟨?_, ?_, ?_⟩
  · have hO2 : orgs.find? (fun o => o.oid == plP.org) = some org := hO
    have hOid : org.oid = plP.org := by simpa using List.find?_some hO2
    have h1 : (orgsOnProjectCreated orgs (some plP)).1
        = updateOrgById orgs plP.org { org with projects := org.projects ++ [plP.project] } := by
      simp [orgsOnProjectCreated, hO]
    have h2 : findOrg (updateOrgById orgs plP.org { org with projects := org.projects ++ [plP.project] }) plP.org
        = some { org with projects := org.projects ++ [plP.project] } :=
      findOrg_updateOrgById orgs plP.org _ org hOid hO
    have h3 : (orgsOnProjectCreated (updateOrgById orgs plP.org { org with projects := org.projects ++ [plP.project] }) (some plP)).1
        = updateOrgById (updateOrgById orgs plP.org { org with projects := org.projects ++ [plP.project] }) plP.org
            { org with projects := (org.projects ++ [plP.project]) ++ [plP.project] } := by
      simp [orgsOnProjectCreated, h2]
    intro o ho hoid
    rw [h1, h3] at ho
    rw [mem_updateOrgById_eq _ _ _ _ ho hoid]
    simp
  · have hC2 : tasks1.find? (fun t => t.tid == plC.task) = some ta := hC
    have hCid : ta.tid = plC.task := by simpa using List.find?_some hC2
    have h1 : (tasksOnTaskCommentCreated tasks1 (some plC)).1
        = updateTaskById tasks1 plC.task { ta with comments := ta.comments ++ [plC.comment] } := by
      simp [tasksOnTaskCommentCreated, hC]
    have h2 : findTask (updateTaskById tasks1 plC.task { ta with comments := ta.comments ++ [plC.comment] }) plC.task
        = some { ta with comments := ta.comments ++ [plC.comment] } :=
      findTask_updateTaskById tasks1 plC.task _ ta hCid hC
    have h3 : (tasksOnTaskCommentCreated (updateTaskById tasks1 plC.task { ta with comments := ta.comments ++ [plC.comment] }) (some plC)).1
        = updateTaskById (updateTaskById tasks1 plC.task { ta with comments := ta.comments ++ [plC.comment] }) plC.task
            { ta with comments := (ta.comments ++ [plC.comment]) ++ [plC.comment] } := by
      simp [tasksOnTaskCommentCreated, h2]
    intro x hx hxid
    rw [h1, h3] at hx
    rw [mem_updateTaskById_eq _ _ _ _ hx hxid]
    simp
  · have hA2 : tasks2.find? (fun t => t.tid == plA.task) = some tb := hA
    have hAid : tb.tid = plA.task := by simpa using List.find?_some hA2
    have h1 : (tasksOnTaskAttachmentUploaded tasks2 (some plA)).1
        = updateTaskById tasks2 plA.task { tb with attachments := tb.attachments ++ [plA.file] } := by
      simp [tasksOnTaskAttachmentUploaded, hA]
    have h2 : findTask (updateTaskById tasks2 plA.task { tb with attachments := tb.attachments ++ [plA.file] }) plA.task
        = some { tb with attachments := tb.attachments ++ [plA.file] } :=
      findTask_updateTaskById tasks2 plA.task _ tb hAid hA
    have h3 : (tasksOnTaskAttachmentUploaded (updateTaskById tasks2 plA.task { tb with attachments := tb.attachments ++ [plA.file] }) (some plA)).1
        = updateTaskById (updateTaskById tasks2 plA.task { tb with attachments := tb.attachments ++ [plA.file] }) plA.task
            { tb with attachments := (tb.attachments ++ [plA.file]) ++ [plA.file] } := by
      simp [tasksOnTaskAttachmentUploaded, h2]
    intro x hx hxid
    rw [h1, h3] at hx
    rw [mem_updateTaskById_eq _ _ _ _ hx hxid]
    simp

/-- Witness for the corrected C2 theorem at a concrete store. -/
theorem c2_add_handlers_append_again_witness :
    (∀ o ∈ (orgsOnProjectCreated (orgsOnProjectCreated [oAcme] (some ⟨"o1", "p2"⟩)).1 (some ⟨"o1", "p2"⟩)).1,
        o.oid = "o1" → o.projects = oAcme.projects ++ ["p2", "p2"])
      ∧ (∀ x ∈ (tasksOnTaskCommentCreated (tasksOnTaskCommentCreated [tOne] (some ⟨"c9", "t1"⟩)).1 (some ⟨"c9", "t1"⟩)).1,
          x.tid = "t1" → x.comments = tOne.comments ++ ["c9", "c9"])
      ∧ (∀ x ∈ (tasksOnTaskAttachmentUploaded (tasksOnTaskAttachmentUploaded [tOne] (some ⟨"t1", "a.png"⟩)).1 (some ⟨"t1", "a.png"⟩)).1,
          x.tid = "t1" → x.attachments = tOne.attachments ++ ["a.png", "a.png"]) :=
  c2_add_handlers_append_again [oAcme] [tOne] [tOne] ⟨"o1", "p2"⟩ ⟨"c9", "t1"⟩
    ⟨"t1", "a.png"⟩ oAcme tOne tOne (by decide) (by decide) (by decide)

/-- Decidable equality for action results (used by the concrete witnesses). -/
instance instDecEqExcept {e a : Type} [DecidableEq e] [DecidableEq a] :
    DecidableEq (Except e a)
  | .ok x, .ok y =>
    if h : x = y then .isTrue (congrArg Except.ok h)
    else .isFalse (fun hc => h (Except.ok.inj hc))
  | .error x, .error y =>
    if h : x = y then .isTrue (congrArg Except.error h)
    else .isFalse (fun hc => h (Except.error.inj hc))
  | .ok _, .error _ => .isFalse (fun hc => Except.noConfusion hc)
  | .error _, .ok _ => .isFalse (fun hc => Except.noConfusion hc)

/-- The spec-modelled role check succeeds when the acting user is stored and
its role belongs to the accepted set. -/
theorem isAuthorized_of_role (users : List User) (me : EntityId) (u : User)
    (rs : List String) (hu : findUser users me = some u)
    (hr : rs.contains u.role = true) : userIsAuthorized users me rs = true := by
  unfold userIsAuthorized
  rw [hu]
  exact hr

/-- The spec-modelled role check fails when the acting user is stored and its
role is outside the accepted set. -/
theorem not_isAuthorized_of_role (users : List User) (me : EntityId) (u : User)
    (rs : List String) (hu : findUser users me = some u)
    (hr : rs.contains u.role = false) : userIsAuthorized users me rs = false := by
  unfold userIsAuthorized
  rw [hu]
  exact hr

/-- C6: each propagation handler (Organisation Service `user.removed`, Task
Service `task.comment.created`, Project Service `task.created`) treats a
missing target document as a silent no-op: it returns without raising any
error to the publisher (handlers are total and throw-free in the source),
leaves its store unchanged and performs no effect. -/
theorem c6_handlers_missing_target_noop
    (orgs : List Organisation) (tasks : List TaskEnt) (projects : List Project)
    (plU : UserRemovedPayload) (plC : TaskCommentCreatedPayload)
    (plT : TaskCreatedPayload)
    (h1 : findOrg orgs plU.org = none)
    (h2 : findTask tasks plC.task = none)
    (h3 : findProject projects plT.project = none) :
    orgsOnUserRemoved orgs (some plU) = (orgs, [])
      ∧ tasksOnTaskCommentCreated tasks (some plC) = (tasks, [])
      ∧ projectsOnTaskCreated projects (some plT) = (projects, []) := by
  refine ⟨?_, ?_, ?_⟩
  · simp [orgsOnUserRemoved, h1]
  · simp [tasksOnTaskCommentCreated, h2]
  · simp [projectsOnTaskCreated, h3]

/-- Witness for C6 at concrete stores whose documents do not match the
payload targets. -/
theorem c6_handlers_missing_target_noop_witness :
    orgsOnUserRemoved [oAcme] (some ⟨"u2", "oX", "nick"⟩) = ([oAcme], [])
      ∧ tasksOnTaskCommentCreated [tOne] (some ⟨"c1", "tX"⟩) = ([tOne], [])
      ∧ projectsOnTaskCreated [pOne] (some ⟨"pX", "t5", "u1"⟩) = ([pOne], []) :=
  c6_handlers_missing_target_noop [oAcme] [tOne] [pOne]
    ⟨"u2", "oX", "nick"⟩ ⟨"c1", "tX"⟩ ⟨"pX", "t5", "u1"⟩
    (by decide) (by decide) (by decide)

/-- C10: every successful `tasks.create` stores the new task with its status
field equal to the backlog constant (`entity.status = C.TASK_STATUS_BACKLOG`
overwrites whatever the payload supplied, the payload status being quantified
over here), so every task starts in the backlog state. -/
theorem c10_tasksCreate_status_backlog
    (w : World) (me : EntityId) (t : TaskPayload) (nid : EntityId)
    (w2 : World) (tr : List Effect)
    (h : tasksCreate w me t nid = .ok (w2, tr)) :
    ∃ doc : TaskEnt, w2.tasks = w.tasks ++ [doc]
      ∧ doc.status = TaskStatus.backlog ∧ doc.tid = nid := by
  unfold tasksCreate at h
  split_ifs at h
  obtain ⟨hw, -⟩ := Prod.mk.inj (Except.ok.inj h)
  exact ⟨{ tid := nid, name := t.name, description := t.description,
           status := .backlog, assignee := t.assignee, project := t.project,
           comments := t.comments.getD [], attachments := [] },
         by rw [← hw], rfl, rfl⟩

/-- Fixture world for the C10 witness: admin user, one organisation, one
project, empty task store. -/
def c10World : World :=
  { users := [uAdmin], orgs := [oAcme], projects := [pOne], tasks := [], comments := [] }

/-- The task document the C10 witness run inserts. -/
def c10Doc : TaskEnt :=
  { tid := "t9", name := "New task", description := "desc", status := .backlog,
    assignee := "", project := "p1", comments := [], attachments := [] }

/-- Witness for C10: a concrete `tasks.create` call whose payload asks for the
done status nevertheless stores the task with backlog status. -/
theorem c10_tasksCreate_status_backlog_witness :
    ∃ doc : TaskEnt,
      ({ c10World with tasks := [c10Doc] } : World).tasks = c10World.tasks ++ [doc]
        ∧ doc.status = TaskStatus.backlog ∧ doc.tid = "t9" :=
  c10_tasksCreate_status_backlog c10World "u1"
    ⟨some .doneStatus, "New task", "desc", "", "p1", none⟩ "t9"
    { c10World with tasks := [c10Doc] }
    [.write (.insertTask c10Doc), .emit (.taskCreated "p1" "t9" "")]
    (by decide)

/-- Fixture payload for the C4 run. -/
def c4Payload : ProjectPayload :=
  { name := "P2", color := "#0f0", organisation := "o1", budget := 50,
    members := none, tasks := none }

/-- Fixture world for the C4 run: admin user and the target organisation
exist, so the creation succeeds. -/
def c4World : World :=
  { users := [uAdmin], orgs := [oAcme], projects := [], tasks := [], comments := [] }

/-- C4 (code-bug evidence): a fully successful `projects.create` performs its
single insert but publishes NO `project.created` event (the current schema in
src/unnamed/part_004 lines 301-354 has no emit; the superseded schema in the
same file emitted `project.created\x7borg,project\x7d` right after the insert,
and the Organisation Service still subscribes to that event), contradicting
the claimed insert-then-publish contract. -/
theorem c4_projectsCreate_emits_no_event :
    (projectsCreate c4World "u1" c4Payload "p2").toOption.map
        (fun r => (emits r.2, writes r.2))
      = some ([], [StoreOp.insertProject
          { pid := "p2", name := "P2", color := "#0f0", organisation := "o1",
            budget := 50, members := ["u1"], tasks := [] }]) := by
  decide

/-- Fixture world for the C5 addMember run: the organisation exists and the
user is not yet a member. -/
def c5WA : World :=
  { users := [], orgs := [oAcme], projects := [], tasks := [], comments := [] }

/-- Fixture world for the C5 task-removal run: admin user and the task exist. -/
def c5WB : World :=
  { users := [uAdmin], orgs := [], projects := [], tasks := [tOne], comments := [] }

/-- Fixture world for the C5 comment-removal run: admin user and the comment
exist. -/
def c5WC : World :=
  { users := [uAdmin], orgs := [], projects := [], tasks := [], comments := [cOne] }

/-- C5 counterexample: for each of the three cited actions
(`organisations.addMember`, `tasks.remove`, `task.comments.remove`) a
successful concrete run produces a trace in which the domain event is emitted
BEFORE any store write, so the event is not published only after the change
has been committed. -/
theorem c5_emit_before_commit_cex :
    ((organisationsAddMember c5WA "o1" "u2").toOption.map
        (fun r => emitsAfterCommit r.2) = some false)
      ∧ ((tasksRemove c5WB "u1" "t1").toOption.map
          (fun r => emitsAfterCommit r.2) = some false)
      ∧ ((commentsRemove c5WC "u1" "c1").toOption.map
          (fun r => emitsAfterCommit r.2) = some false) := by
  decide

/-- C5 (corrected): each of the three actions publishes its domain event
immediately BEFORE committing the corresponding change to its own Entity
Store: on success the effect trace is exactly the emit followed by the store
write. -/
theorem c5_emit_immediately_before_commit
    (w : World) (me oid uid tid cid : EntityId)
    (org : Organisation) (task : TaskEnt) (cm : TaskComment) (u : User)
    (hlen : oid.length ≥ 2 ∧ uid.length ≥ 2)
    (horg : findOrg w.orgs oid = some org)
    (hmem : org.members.contains uid = false)
    (htask : findTask w.tasks tid = some task)
    (hcm : findComment w.comments cid = some cm)
    (hu : findUser w.users me = some u) (hrole : u.role = "admin") :
    organisationsAddMember w oid uid
        = .ok ({ w with orgs := updateOrgById w.orgs oid { org with members := org.members ++ [uid] } },
               [.emit (.userOrgAdded oid uid),
                .write (.updateOrg oid { org with members := org.members ++ [uid] })])
      ∧ tasksRemove w me tid
        = .ok ({ w with tasks := removeTaskById w.tasks tid },
               [.emit (.taskRemoved task.tid task.project), .write (.removeTask tid)])
      ∧ commentsRemove w me cid
        = .ok ({ w with comments := removeCommentById w.comments cid },
               [.emit (.taskCommentRemoved cm.cid cm.task), .write (.removeComment cid)]) := by
  have hA1 : userIsAuthorized w.users me ["admin", "project_manager"] = true :=
    isAuthorized_of_role w.users me u _ hu (by rw [hrole]; decide)
  have hA2 : userIsAuthorized w.users me ["admin", "project_manager", "employee"] = true :=
    isAuthorized_of_role w.users me u _ hu (by rw [hrole]; decide)
  have hnm : uid ∉ org.members := by simpa using hmem
  refine ⟨?_, ?_, ?_⟩
  · simp [organisationsAddMember, horg, hmem, hnm, hlen.1, hlen.2]
  · simp [tasksRemove, htask, hA1]
  · simp [commentsRemove, hcm, hA2]

/-- Combined fixture world for the C5 witness: admin user, organisation, task
and comment all present. -/
def c5All : World :=
  { users := [uAdmin], orgs := [oAcme], projects := [], tasks := [tOne],
    comments := [cOne] }

/-- Witness for the corrected C5 theorem at the concrete fixture worlds. -/
theorem c5_emit_immediately_before_commit_witness :
    organisationsAddMember c5All "o1" "u2"
        = .ok ({ c5All with orgs := updateOrgById c5All.orgs "o1" { oAcme with members := oAcme.members ++ ["u2"] } },
               [.emit (.userOrgAdded "o1" "u2"),
                .write (.updateOrg "o1" { oAcme with members := oAcme.members ++ ["u2"] })])
      ∧ tasksRemove c5All "u1" "t1"
        = .ok ({ c5All with tasks := removeTaskById c5All.tasks "t1" },
               [.emit (.taskRemoved tOne.tid tOne.project), .write (.removeTask "t1")])
      ∧ commentsRemove c5All "u1" "c1"
        = .ok ({ c5All with comments := removeCommentById c5All.comments "c1" },
               [.emit (.taskCommentRemoved cOne.cid cOne.task), .write (.removeComment "c1")]) :=
  c5_emit_immediately_before_commit c5All "u1" "o1" "u2" "t1" "c1" oAcme tOne cOne uAdmin
    (by decide) (by decide) (by decide) (by decide) (by decide) (by decide) (by decide)

/-- C7: for the role-protected mutating actions `tasks.create`,
`task.comments.create` and `organisations.remove`, calling as a stored user
whose role lies outside the accepted role set makes the action throw exactly
the role-check rejection (`MoleculerClientError` 405, the Forbidden-class
error of this codebase) — an error result carries no world update and no
effect trace, i.e. no store write and no event emission — while calling with
a role inside the accepted set is never rejected with that role-check error. -/
theorem c7_role_gate
    (w : World) (me : EntityId) (u : User)
    (t : TaskPayload) (c : CommentPayload) (oid nid1 nid2 : EntityId)
    (org : Organisation)
    (hu : findUser w.users me = some u)
    (hvt : validTaskPayload t = true) (hvc : validCommentPayload c = true)
    (horg : findOrg w.orgs oid = some org) :
    ((["admin", "project_manager"] : List String).contains u.role = false →
        tasksCreate w me t nid1 = .error roleError)
      ∧ ((["admin", "project_manager", "employee"] : List String).contains u.role = false →
          commentsCreate w me c nid2 = .error roleError)
      ∧ ((["admin"] : List String).contains u.role = false →
          organisationsRemove w me oid = .error roleError)
      ∧ ((["admin", "project_manager"] : List String).contains u.role = true →
          tasksCreate w me t nid1 ≠ .error roleError)
      ∧ ((["admin", "project_manager", "employee"] : List String).contains u.role = true →
          commentsCreate w me c nid2 ≠ .error roleError)
      ∧ ((["admin"] : List String).contains u.role = true →
          organisationsRemove w me oid ≠ .error roleError) := by
  refine ⟨?_, ?_, ?_, ?_, ?_, ?_⟩
  · intro hr
    simp [tasksCreate, hvt, not_isAuthorized_of_role w.users me u _ hu hr]
  · intro hr
    simp [commentsCreate, hvc, not_isAuthorized_of_role w.users me u _ hu hr]
  · intro hr
    simp [organisationsRemove, horg, not_isAuthorized_of_role w.users me u _ hu hr]
  · intro hr
    have hA := isAuthorized_of_role w.users me u _ hu hr
    simp only [tasksCreate, hvt, hA, Bool.not_true]
    split_ifs <;> simp [roleError, validationError]
  · intro hr
    have hA := isAuthorized_of_role w.users me u _ hu hr
    simp only [commentsCreate, hvc, hA, Bool.not_true]
    split_ifs <;> simp [roleError, validationError]
  · intro hr
    have hA := isAuthorized_of_role w.users me u _ hu hr
    simp [organisationsRemove, horg, hA]

/-- Fixture world for the C7 witness: an employee user, with organisation,
project and task stored. -/
def c7World : World :=
  { users := [uEmp], orgs := [oAcme], projects := [pOne], tasks := [tOne],
    comments := [] }

/-- Witness for C7 at a stored employee user: the employee is rejected by the
role gates of `tasks.create` and `organisations.remove` and is not rejected
by the role gate of `task.comments.create`. -/
theorem c7_role_gate_witness :
    ((["admin", "project_manager"] : List String).contains uEmp.role = false →
        tasksCreate c7World "u2" ⟨none, "Task A", "d", "", "p1", none⟩ "tX" = .error roleError)
      ∧ ((["admin", "project_manager", "employee"] : List String).contains uEmp.role = false →
          commentsCreate c7World "u2" ⟨"u2", "hi", "t1"⟩ "cX" = .error roleError)
      ∧ ((["admin"] : List String).contains uEmp.role = false →
          organisationsRemove c7World "u2" "o1" = .error roleError)
      ∧ ((["admin", "project_manager"] : List String).contains uEmp.role = true →
          tasksCreate c7World "u2" ⟨none, "Task A", "d", "", "p1", none⟩ "tX" ≠ .error roleError)
      ∧ ((["admin", "project_manager", "employee"] : List String).contains uEmp.role = true →
          commentsCreate c7World "u2" ⟨"u2", "hi", "t1"⟩ "cX" ≠ .error roleError)
      ∧ ((["admin"] : List String).contains uEmp.role = true →
          organisationsRemove c7World "u2" "o1" ≠ .error roleError) :=
  c7_role_gate c7World "u2" uEmp ⟨none, "Task A", "d", "", "p1", none⟩
    ⟨"u2", "hi", "t1"⟩ "o1" "tX" "cX" oAcme
    (by decide) (by decide) (by decide) (by decide)

/-- C1: when the payload of a dependent-entity creation references a foreign
entity that does not exist (the assignee user or the project for
`tasks.create`, the organisation for `projects.create`, the task for
`task.comments.create`), the create action throws the NotFound-class error
(404) — and an error result carries no world update and no effect trace, so
nothing is inserted into the creating store and no creation event is
emitted. -/
theorem c1_create_missing_reference_not_found
    (w : World) (me : EntityId) (u : User)
    (t1 t2 : TaskPayload) (p : ProjectPayload) (c : CommentPayload)
    (n1 n2 n3 n4 : EntityId)
    (hu : findUser w.users me = some u) (hadmin : u.role = "admin")
    (hv1 : validTaskPayload t1 = true) (ha1 : t1.assignee ≠ "")
    (ha2 : findUser w.users t1.assignee = none)
    (hv2 : validTaskPayload t2 = true)
    (hb1 : t2.assignee = "") (hb2 : findProject w.projects t2.project = none)
    (hp1 : validProjectParams p = true) (hp2 : validProjectEntity p = true)
    (hp3 : p.organisation ≠ "")
    (hp4 : w.projects.find? (fun q => q.name == p.name) = none)
    (hp5 : findOrg w.orgs p.organisation = none)
    (hc1 : validCommentPayload c = true)
    (hc2 : c.author = "" ∨ userIsCreated w.users c.author = true)
    (hc3 : findTask w.tasks c.task = none) :
    tasksCreate w me t1 n1 = .error ⟨"Provided user not found!", 404⟩
      ∧ tasksCreate w me t2 n2 = .error ⟨"Provided project not found!", 404⟩
      ∧ projectsCreate w me p n3 = .error ⟨"Provided organisation not found!", 404⟩
      ∧ commentsCreate w me c n4 = .error ⟨"Provided task not found!", 404⟩ := by
  have hA1 : userIsAuthorized w.users me ["admin", "project_manager"] = true :=
    isAuthorized_of_role w.users me u _ hu (by rw [hadmin]; decide)
  have hA2 : userIsAuthorized w.users me ["admin", "project_manager", "employee"] = true :=
    isAuthorized_of_role w.users me u _ hu (by rw [hadmin]; decide)
  refine ⟨?_, ?_, ?_, ?_⟩
  · have hcond : (t1.assignee != "" && !(userIsCreated w.users t1.assignee)) = true := by
      simp [userIsCreated, ha2, bne_iff_ne, ha1]
    simp [tasksCreate, hv1, hA1, hcond]
  · have hcond : (t2.assignee != "" && !(userIsCreated w.users t2.assignee)) = false := by
      simp [hb1]
    have htr : truthy (projectsIsCreated w.projects t2.project) = false := by
      simp [projectsIsCreated, hb2, truthy]
    simp [tasksCreate, hv2, hA1, hcond, htr]
  · have htr : truthy (organisationsIsCreated w.orgs p.organisation) = false := by
      simp [organisationsIsCreated, hp5, truthy]
    simp [projectsCreate, hp1, hp2, hp3, hp4, hA1, htr]
  · have hcond : (c.author != "" && !(userIsCreated w.users c.author)) = false := by
      rcases hc2 with h | h <;> simp [h]
    have htr : truthy (tasksIsCreated w.tasks c.task) = false := by
      simp [tasksIsCreated, hc3, truthy]
    simp [commentsCreate, hc1, hA2, hcond, htr]

/-- Fixture world for the C1 witness: only the admin user is stored, so every
foreign reference used by the payloads below is dangling. -/
def c1World : World :=
  { users := [uAdmin], orgs := [], projects := [], tasks := [], comments := [] }

/-- Witness for C1: concrete creations whose assignee, project, organisation
and task references do not exist are all rejected with 404. -/
theorem c1_create_missing_reference_not_found_witness :
    tasksCreate c1World "u1" ⟨none, "T1", "d", "ghost", "p1", none⟩ "n1"
        = .error ⟨"Provided user not found!", 404⟩
      ∧ tasksCreate c1World "u1" ⟨none, "T2", "d", "", "p9", none⟩ "n2"
        = .error ⟨"Provided project not found!", 404⟩
      ∧ projectsCreate c1World "u1" ⟨"PX", "#00", "o9", 1, none, none⟩ "n3"
        = .error ⟨"Provided organisation not found!", 404⟩
      ∧ commentsCreate c1World "u1" ⟨"u1", "hi", "t9"⟩ "n4"
        = .error ⟨"Provided task not found!", 404⟩ :=
  c1_create_missing_reference_not_found c1World "u1" uAdmin
    ⟨none, "T1", "d", "ghost", "p1", none⟩ ⟨none, "T2", "d", "", "p9", none⟩
    ⟨"PX", "#00", "o9", 1, none, none⟩ ⟨"u1", "hi", "t9"⟩
    "n1" "n2" "n3" "n4"
    (by decide) (by decide) (by decide) (by decide) (by decide) (by decide)
    (by decide) (by decide) (by decide) (by decide) (by decide) (by decide)
    (by decide) (by decide) (by decide) (by decide)

/-- The user document `user.create` builds and inserts (defaults of
src/services/user.service.js lines 550-558 applied to the payload). -/
def userDoc (p : UserPayload) (nid : EntityId) : User :=
  { uid := nid, firstName := p.firstName, lastName := p.lastName,
    email := p.email, password := p.password,
    role := if p.role == "" then "admin" else p.role,
    organisation := p.organisation, projects := p.projects.getD [] }

/-- C8: creating a user with a fresh email inserts exactly one document;
calling `user.create` again with the same email throws the Conflict-class
(422) error — an error result carries no insert — and exactly one stored user
carries that email. -/
theorem c8_user_create_email_conflict
    (w : World) (p q : UserPayload) (id1 id2 : EntityId)
    (hvp : validUserPayload p = true) (hvq : validUserPayload q = true)
    (hsame : q.email = p.email)
    (hfresh : ∀ x ∈ w.users, x.email ≠ p.email) :
    ∃ w1 : World,
      userCreate w p id1 = .ok (w1, [.write (.insertUser (userDoc p id1))])
        ∧ (w1.users.filter (fun x => x.email == p.email)).length = 1
        ∧ userCreate w1 q id2
          = .error ⟨"User with that e-mail already exists!", 422⟩ := by
  have hfind : w.users.find? (fun x => x.email == p.email) = none :=
    List.find?_eq_none.mpr (fun x hx => by simp [hfresh x hx])
  have hne : p.email ≠ "" := by
    intro h
    have hv := hvp
    unfold validUserPayload at hv
    rw [h] at hv
    simp at hv
  refine ⟨{ w with users := w.users ++ [userDoc p id1] }, ?_, ?_, ?_⟩
  · simp [userCreate, hvp, hfind, userDoc]
  · rw [List.filter_append]
    have h1 : w.users.filter (fun x => x.email == p.email) = [] := by
      rw [List.filter_eq_nil_iff]
      intro a ha
      simp [hfresh a ha]
    rw [h1]
    simp [userDoc]
  · have hmem : (((w.users ++ [userDoc p id1]).find?
        (fun x => x.email == q.email)).isSome) = true := by
      refine (findBy_isSome_iff (fun x : User => x.email) _ q.email).mpr ?_
      refine ⟨userDoc p id1, List.mem_append_right _ (List.mem_singleton.mpr rfl), ?_⟩
      simp [userDoc, hsame]
    have hqne : (q.email != "") = true := by simp [hsame, bne_iff_ne, hne]
    simp [userCreate, hvq, hmem, hqne]
    intro _
    simp [userDoc, hsame]

/-- Witness for C8: a concrete double creation with the same email. -/
theorem c8_user_create_email_conflict_witness :
    ∃ w1 : World,
      userCreate ⟨[], [], [], [], []⟩
          ⟨"Perica", "Horvat", "ph@gmail.com", "123456", "employee", none, none⟩ "u5"
        = .ok (w1, [.write (.insertUser (userDoc
            ⟨"Perica", "Horvat", "ph@gmail.com", "123456", "employee", none, none⟩ "u5"))])
        ∧ (w1.users.filter (fun x => x.email == "ph@gmail.com")).length = 1
        ∧ userCreate w1
            ⟨"Perica", "Horvat", "ph@gmail.com", "123456", "employee", none, none⟩ "u6"
          = .error ⟨"User with that e-mail already exists!", 422⟩ :=
  c8_user_create_email_conflict ⟨[], [], [], [], []⟩
    ⟨"Perica", "Horvat", "ph@gmail.com", "123456", "employee", none, none⟩
    ⟨"Perica", "Horvat", "ph@gmail.com", "123456", "employee", none, none⟩
    "u5" "u6" (by decide) (by decide) (by decide) (by decide)

/-- C3: after a successful `projects.remove` of a stored project and the
processing of the resulting `project.removed` event by the Task Service and
the Organisation Service, no stored task references the removed project, the
owning organisation projects list no longer contains it, and every task
belonging to another project is still present in the task store (task ids are
assumed pairwise distinct, as the store assigns unique ids). -/
theorem c3_project_remove_cascade
    (w : World) (me pid : EntityId) (u : User) (project : Project)
    (hu : findUser w.users me = some u) (hrole : u.role = "admin")
    (hfind : findProject w.projects pid = some project)
    (hoid : project.organisation ≠ "")
    (hnodup : (w.tasks.map (fun t => t.tid)).Nodup) :
    projectsRemove w me pid
        = .ok ({ w with projects := removeProjectById w.projects pid },
               [.emit (.projectRemoved project.pid (some project.organisation)),
                .write (.removeProject pid)])
      ∧ (∀ t ∈ (tasksOnProjectRemoved w.tasks (some ⟨project.pid, some project.organisation⟩)).1,
           t.project ≠ project.pid)
      ∧ (∀ t ∈ w.tasks, t.project ≠ project.pid →
           t ∈ (tasksOnProjectRemoved w.tasks (some ⟨project.pid, some project.organisation⟩)).1)
      ∧ (∀ o ∈ (orgsOnProjectRemoved w.orgs (some ⟨project.pid, some project.organisation⟩)).1,
           o.oid = project.organisation → project.pid ∉ o.projects) := by
  have hA : userIsAuthorized w.users me ["admin", "project_manager"] = true :=
    isAuthorized_of_role w.users me u _ hu (by rw [hrole]; decide)
  have hstore : (tasksOnProjectRemoved w.tasks (some ⟨project.pid, some project.organisation⟩)).1
      = (w.tasks.filter (fun t => t.project == project.pid)).reverse.foldl
          (fun s t => removeTaskById s t.tid) w.tasks := by
    unfold tasksOnProjectRemoved
    exact foldl_pair_fst (fun (s : List TaskEnt) (t : TaskEnt) => removeTaskById s t.tid)
      (fun (tr : List Effect) (t : TaskEnt) =>
        tr ++ [Effect.emit (Event.taskRemoved t.tid project.pid),
               Effect.write (StoreOp.removeTask t.tid)])
      _ w.tasks []
  have hfilter : (tasksOnProjectRemoved w.tasks (some ⟨project.pid, some project.organisation⟩)).1
      = w.tasks.filter (fun x =>
          (w.tasks.filter (fun t => t.project == project.pid)).reverse.all
            (fun t => x.tid != t.tid)) := by
    rw [hstore]
    exact foldl_remove_eq_filter (fun t => t.tid) _ w.tasks
  have hne : ((project.organisation == "") = false) := by simp [hoid]
  refine ⟨by simp [projectsRemove, hA, hfind], ?_, ?_, ?_⟩
  · intro t ht
    rw [hfilter] at ht
    obtain ⟨ht1, ht2⟩ := List.mem_filter.mp ht
    intro hproj
    have htm : t ∈ (w.tasks.filter (fun s => s.project == project.pid)).reverse :=
      List.mem_reverse.mpr (List.mem_filter.mpr ⟨ht1, by simp [hproj]⟩)
    have hcontra := (List.all_eq_true.mp ht2) t htm
    simp at hcontra
  · intro t ht hproj
    rw [hfilter]
    refine List.mem_filter.mpr ⟨ht, List.all_eq_true.mpr ?_⟩
    intro s hs
    have hs2 := List.mem_reverse.mp hs
    obtain ⟨hs3, hs4⟩ := List.mem_filter.mp hs2
    have hgoal : t.tid ≠ s.tid := by
      intro heq
      have hts : t = s := List.inj_on_of_nodup_map hnodup ht hs3 heq
      rw [hts] at hproj
      exact hproj (by simpa using hs4)
    simpa using hgoal
  · intro o ho hoidEq
    cases hfo : findOrg w.orgs project.organisation with
    | none =>
      have hres : orgsOnProjectRemoved w.orgs (some ⟨project.pid, some project.organisation⟩)
          = (w.orgs, []) := by
        simp [orgsOnProjectRemoved, hne, hfo]
      rw [hres] at ho
      have hfo2 : w.orgs.find? (fun x => x.oid == project.organisation) = none := hfo
      have := List.find?_eq_none.mp hfo2 o ho
      simp [hoidEq] at this
    | some org =>
      have hres : (orgsOnProjectRemoved w.orgs (some ⟨project.pid, some project.organisation⟩)).1
          = updateOrgById w.orgs project.organisation
              { org with projects := org.projects.filter (fun q => q != project.pid) } := by
        simp [orgsOnProjectRemoved, hne, hfo]
      rw [hres] at ho
      rw [mem_updateOrgById_eq _ _ _ _ ho hoidEq]
      intro hmem
      obtain ⟨-, hq⟩ := List.mem_filter.mp hmem
      simp at hq

/-- Test fixture: the organisation with the project back-reference already
propagated. -/
def oAcmeWithP : Organisation :=
  { oid := "o1", name := "Acme", members := [], projects := ["p1"] }

/-- Test fixture: a task belonging to a different project. -/
def tOther : TaskEnt :=
  { tid := "t2", name := "Other task", description := "d", status := .backlog,
    assignee := "", project := "q1", comments := [], attachments := [] }

/-- Fixture world for the C3 witness. -/
def c3World : World :=
  { users := [uAdmin], orgs := [oAcmeWithP], projects := [pOne],
    tasks := [tOne, tOther], comments := [] }

/-- Witness for C3 at a concrete world holding one task of the removed
project and one task of another project. -/
theorem c3_project_remove_cascade_witness :
    projectsRemove c3World "u1" "p1"
        = .ok ({ c3World with projects := removeProjectById c3World.projects "p1" },
               [.emit (.projectRemoved pOne.pid (some pOne.organisation)),
                .write (.removeProject "p1")])
      ∧ (∀ t ∈ (tasksOnProjectRemoved c3World.tasks (some ⟨pOne.pid, some pOne.organisation⟩)).1,
           t.project ≠ pOne.pid)
      ∧ (∀ t ∈ c3World.tasks, t.project ≠ pOne.pid →
           t ∈ (tasksOnProjectRemoved c3World.tasks (some ⟨pOne.pid, some pOne.organisation⟩)).1)
      ∧ (∀ o ∈ (orgsOnProjectRemoved c3World.orgs (some ⟨pOne.pid, some pOne.organisation⟩)).1,
           o.oid = pOne.organisation → pOne.pid ∉ o.projects) :=
  c3_project_remove_cascade c3World "u1" "p1" uAdmin pOne
    (by decide) (by decide) (by decide) (by decide) (by decide)
